import Mathlib

/-!
Shallow embedding of the Chitral Concierge pipeline (src/main.py): a
single-turn question-answering app that glues a web-search provider
(Tavily) and a chat-completion provider (OpenAI) behind a form UI.

The two external providers are modelled by explicit outcome values (a
results list, or a raised exception carrying its message).  UI output,
the session-state write and the outbound network calls are modelled as
an explicit ordered effect list.  Python string truthiness (None and ""
are falsy) is modelled explicitly by `pyTruthy`.
-/

namespace ChitralConcierge

set_option maxRecDepth 20000

/-- One web-search hit as consumed by the code: url, title, content. -/
structure SourceRecord where
  url : String
  title : String
  content : String
deriving Repr, DecidableEq

/-- Outcome of the Tavily search call: a results list (the empty list
covers "falsy response / missing results key / empty results", all of
which the code treats identically at line 81), or a raised
transport/provider exception carrying its message. -/
inductive SearchOutcome where
  | ok (results : List SourceRecord)
  | exn (msg : String)
deriving Repr, DecidableEq

/-- Outcome of the OpenAI chat-completion call: the content of the
first choice, or a raised exception carrying its message. -/
inductive ChatOutcome where
  | ok (content : String)
  | exn (msg : String)
deriving Repr, DecidableEq

/-- The two API keys resolved once at process start (lines 16-17);
`none` models an absent key. -/
structure Config where
  openai_api_key : Option String
  tavily_api_key : Option String
deriving Repr, DecidableEq

/-- Python truthiness of an optional string: `None` and `""` are falsy,
every other string is truthy. -/
def pyTruthy : Option String → Bool
  | none => false
  | some s => s != ""

/-- Python `str.strip()` (over ASCII whitespace): drop whitespace from
both ends of the string. -/
def pyStrip (s : String) : String :=
  String.mk (((s.data.dropWhile Char.isWhitespace).reverse.dropWhile
    Char.isWhitespace).reverse)

/-- Observable side effects of one submission, in program order: UI
messages, the session-state write of `search_query`, and the two
outbound network calls. -/
inductive Effect where
  | warning (msg : String)
  | error (msg : String)
  | sessionWrite (search_query : String)
  | searchCall (query : String)
  | chatCall (system user : String)
  | subheader (text : String)
  | markdown (text : String)
  | sourcesExpander (sources : List SourceRecord)
deriving Repr, DecidableEq

/-- Warning shown when the Tavily key is missing (line 63). -/
def tavilyWarning : String := "Tavily API key not found. Web search is disabled."

/-- Sentinel context returned when the search yields no results (line 82). -/
def sentinelContext : String := "No relevant information found from web search."

/-- The domain-scoped search query derived from the user question (line 67). -/
def searchQueryOf (query : String) : String :=
  "latest information on " ++ query ++ " in Chitral, Pakistan"

/-- One context entry per search result (line 89). -/
def contextEntry (r : SourceRecord) : String :=
  "Source URL: " ++ r.url ++ "\nContent: " ++ r.content

/-- Separator between context entries (line 92). -/
def contextSeparator : String := "\n\n---\n\n"

/-- The structured context joined from all results (lines 86-92). -/
def buildContext (results : List SourceRecord) : String :=
  String.intercalate contextSeparator (results.map contextEntry)

/-- ASCII apostrophe (code point 39), used inside the prompt strings. -/
def apos : String := String.singleton (Char.ofNat 39)

/-- Error message reported when the search call raises (line 97). -/
def searchErrorMsg (msg : String) : String :=
  "An error occurred during web search: " ++ msg

/-- System message of the context-synthesis prompt branch (lines 110-114). -/
def synthesisSystemMessage : String :=
  "You are a helpful assistant specializing in Chitral, Pakistan. " ++
  "Use the provided " ++ apos ++ "Web Context" ++ apos ++
  " from a search to give a comprehensive and up-to-date answer to the user" ++
  apos ++ "s question. " ++
  "Synthesize the information from the context into your response."

/-- System message of the general-knowledge prompt branch (lines 123-127). -/
def generalSystemMessage : String :=
  "You are a helpful assistant specializing in Chitral, Pakistan. " ++
  "Answer the user" ++ apos ++ "s question based on your general knowledge. " ++
  "Mention that web search was not available or did not return relevant information."

/-- User prompt of the context branch: the f-string at lines 115-121,
indentation included. -/
def contextUserPrompt (web_context query : String) : String :=
  "\n        Web Context:\n        ---\n        " ++ web_context ++
  "\n        ---\n        Question: " ++ query ++ "\n        "

/-- Fixed string returned when the OpenAI key is missing (line 107). -/
def openaiNotConfigured : String := "Error: OpenAI API key is not configured."

/-- Error message reported when the chat call raises (line 142). -/
def openaiErrorMsg (msg : String) : String :=
  "An OpenAI API error occurred: " ++ msg

/-- Subheader shown before the response area (line 173). -/
def conciergeHeader : String := "💡 Concierge Response:"

/-- Generic failure notice (line 184). -/
def failureNotice : String :=
  "Sorry, I encountered an issue and was unable to process your request."

/-- Validation notice for empty input (line 186). -/
def askFirstNotice : String := "Please ask a question first."

/-- Result of one run of `get_web_context`: the returned
(context, sources) pair, the session-state value of `search_query`
after the run, and the side effects in order. -/
structure WebContextRun where
  context : Option String
  sources : List SourceRecord
  session_search_query : Option String
  effects : List Effect
deriving Repr, DecidableEq

/-- Embedding of `get_web_context` (lines 49-98).  `session0` is the
session-state value of `search_query` before the call; the search
outcome stands for the behaviour of the Tavily provider on this call. -/
def get_web_context (cfg : Config) (search : SearchOutcome)
    (session0 : Option String) (query : String) : WebContextRun :=
  if pyTruthy cfg.tavily_api_key then
    let sq := searchQueryOf query
    match search with
    | SearchOutcome.ok [] =>
        { context := some sentinelContext, sources := [],
          session_search_query := some sq,
          effects := [Effect.sessionWrite sq, Effect.searchCall sq] }
    | SearchOutcome.ok results =>
        { context := some (buildContext results), sources := results,
          session_search_query := some sq,
          effects := [Effect.sessionWrite sq, Effect.searchCall sq] }
    | SearchOutcome.exn msg =>
        { context := none, sources := [],
          session_search_query := some sq,
          effects := [Effect.sessionWrite sq, Effect.searchCall sq,
                      Effect.error (searchErrorMsg msg)] }
  else
    { context := none, sources := [], session_search_query := session0,
      effects := [Effect.warning tavilyWarning] }

/-- Result of one run of `get_ai_response_with_context`: the returned
answer (None on a caught provider exception) and the side effects. -/
structure AiRun where
  answer : Option String
  effects : List Effect
deriving Repr, DecidableEq

/-- Embedding of `get_ai_response_with_context` (lines 101-143). -/
def get_ai_response_with_context (cfg : Config) (chat : ChatOutcome)
    (query : String) (web_context : Option String) : AiRun :=
  if pyTruthy cfg.openai_api_key then
    let sys := if pyTruthy web_context then synthesisSystemMessage
               else generalSystemMessage
    let user := if pyTruthy web_context
                then contextUserPrompt (web_context.getD "") query
                else query
    match chat with
    | ChatOutcome.ok content =>
        { answer := some (pyStrip content),
          effects := [Effect.chatCall sys user] }
    | ChatOutcome.exn msg =>
        { answer := none,
          effects := [Effect.chatCall sys user,
                      Effect.error (openaiErrorMsg msg)] }
  else
    { answer := some openaiNotConfigured, effects := [] }

/-- Result of one submitted form run: the displayed/emitted effects in
order and the session-state value of `search_query` afterwards. -/
structure SubmitRun where
  effects : List Effect
  session_search_query : Option String
deriving Repr, DecidableEq

/-- Embedding of the module-level form submission handler (lines
164-186), for a submitted form.  Python `if user_input:` is emptiness
truthiness, so only the empty string takes the validation branch. -/
def handleSubmit (cfg : Config) (search : SearchOutcome) (chat : ChatOutcome)
    (session0 : Option String) (user_input : String) : SubmitRun :=
  if user_input = "" then
    { effects := [Effect.warning askFirstNotice],
      session_search_query := session0 }
  else
    let web := get_web_context cfg search session0 user_input
    let ai := get_ai_response_with_context cfg chat user_input web.context
    let respEffects :=
      if pyTruthy ai.answer then
        Effect.markdown (ai.answer.getD "") ::
          (if web.sources = [] then []
           else [Effect.sourcesExpander web.sources])
      else
        [Effect.error failureNotice]
    { effects := web.effects ++ ai.effects ++
        Effect.subheader conciergeHeader :: respEffects,
      session_search_query := web.session_search_query }

theorem synthesis_ne_general : synthesisSystemMessage ≠ generalSystemMessage := by
  decide

theorem general_ne_synthesis : generalSystemMessage ≠ synthesisSystemMessage := by
  decide

theorem pyTruthy_some_of_ne {s : String} (h : s ≠ "") :
    pyTruthy (some s) = true := by
  simp [pyTruthy, h]

theorem pyTruthy_sentinel : pyTruthy (some sentinelContext) = true := by
  decide

theorem pyTruthy_none : pyTruthy none = false := rfl

theorem no_sources_in_web_effects (cfg : Config) (search : SearchOutcome)
    (s0 : Option String) (q : String) (ss : List SourceRecord) :
    Effect.sourcesExpander ss ∉ (get_web_context cfg search s0 q).effects := by
  cases search with
  | ok rs =>
      cases rs <;> cases h : pyTruthy cfg.tavily_api_key <;>
        simp [get_web_context, h]
  | exn m =>
      cases h : pyTruthy cfg.tavily_api_key <;> simp [get_web_context, h]

theorem no_sources_in_ai_effects (cfg : Config) (chat : ChatOutcome)
    (q : String) (ctx : Option String) (ss : List SourceRecord) :
    Effect.sourcesExpander ss ∉ (get_ai_response_with_context cfg chat q ctx).effects := by
  cases chat <;> cases h : pyTruthy cfg.openai_api_key <;>
    simp [get_ai_response_with_context, h]

/-- C1: the claim states that when the search provider returns zero
results the answer is generated in the general-knowledge branch, never
the context-synthesis branch.  This is false on the code: zero results
yield the truthy sentinel context (line 82), so the generator takes the
context-synthesis branch.  Concrete run with both keys configured,
question "q", provider returning zero results: the chat call carries
the synthesis system message, which differs from the general one. -/
theorem C1_counterexample :
    Effect.chatCall synthesisSystemMessage (contextUserPrompt sentinelContext "q")
        ∈ (handleSubmit ⟨some "k1", some "k2"⟩ (SearchOutcome.ok [])
            (ChatOutcome.ok "answer") none "q").effects
    ∧ synthesisSystemMessage ≠ generalSystemMessage := by
  constructor
  · decide
  · exact synthesis_ne_general

/-- C1 amended: for every non-empty question with both keys
configured, when the search provider returns zero results the
generated answer is produced in the context-synthesis branch (with the
sentinel context string as the web context), and the general-knowledge
branch is never used on that run. -/
theorem C1_amended (cfg : Config) (chat : ChatOutcome) (s0 : Option String)
    (q : String) (hq : q ≠ "") (ht : pyTruthy cfg.tavily_api_key = true)
    (ho : pyTruthy cfg.openai_api_key = true) :
    Effect.chatCall synthesisSystemMessage (contextUserPrompt sentinelContext q)
        ∈ (handleSubmit cfg (SearchOutcome.ok []) chat s0 q).effects
    ∧ ∀ u, Effect.chatCall generalSystemMessage u
        ∉ (handleSubmit cfg (SearchOutcome.ok []) chat s0 q).effects := by
  cases chat <;>
    simp [handleSubmit, get_web_context, get_ai_response_with_context,
      hq, ht, ho, pyTruthy_sentinel, general_ne_synthesis] <;>
    intro u <;> split <;> simp

/-- C1 amended, instantiated at a concrete run. -/
theorem C1_amended_witness :
    Effect.chatCall synthesisSystemMessage (contextUserPrompt sentinelContext "best places")
        ∈ (handleSubmit ⟨some "k1", some "k2"⟩ (SearchOutcome.ok [])
            (ChatOutcome.ok "a") none "best places").effects :=
  (C1_amended ⟨some "k1", some "k2"⟩ (ChatOutcome.ok "a") none "best places"
    (by decide) (by decide) (by decide)).1

/-- C2: the claim states that (key configured, no exception) the
returned context is present iff at least one SourceRecord is returned.
False on the code: with zero results the call returns the sentinel
string (present) together with an empty sources list (line 82). -/
theorem C2_counterexample :
    (get_web_context ⟨some "k1", some "k2"⟩ (SearchOutcome.ok []) none "q").context ≠ none
    ∧ (get_web_context ⟨some "k1", some "k2"⟩ (SearchOutcome.ok []) none "q").sources = [] := by
  decide

/-- C2 amended: for every call with the search key configured and no
exception raised, the returned context is always present (non-absent):
it is the sentinel string exactly when the sources list is empty, and
the joined context string when it is non-empty; the sources list is
the provider's results unchanged. -/
theorem C2_amended (cfg : Config) (rs : List SourceRecord) (s0 : Option String)
    (q : String) (ht : pyTruthy cfg.tavily_api_key = true) :
    (get_web_context cfg (SearchOutcome.ok rs) s0 q).context ≠ none
    ∧ (get_web_context cfg (SearchOutcome.ok rs) s0 q).sources = rs
    ∧ (rs = [] →
        (get_web_context cfg (SearchOutcome.ok rs) s0 q).context = some sentinelContext)
    ∧ (rs ≠ [] →
        (get_web_context cfg (SearchOutcome.ok rs) s0 q).context = some (buildContext rs)) := by
  cases rs <;> simp [get_web_context, ht]

/-- C2 amended, instantiated at a concrete run. -/
theorem C2_amended_witness :
    (get_web_context ⟨some "k1", some "k2"⟩
        (SearchOutcome.ok [⟨"A", "tA", "X"⟩]) none "q").context ≠ none :=
  (C2_amended ⟨some "k1", some "k2"⟩ [⟨"A", "tA", "X"⟩] none "q" (by decide)).1

/-- C3: the claim states that when the generator result is absent or
failure-like — including the fixed "not configured" error string — the
orchestrator presents a generic failure notice and no sources.  False
on the code: the "not configured" string is truthy, so `if
final_response:` (line 174) presents it as the answer and shows the
sources expander.  Concrete run: OpenAI key absent, search returning
one result. -/
theorem C3_counterexample :
    Effect.markdown openaiNotConfigured
        ∈ (handleSubmit ⟨none, some "k2"⟩ (SearchOutcome.ok [⟨"A", "tA", "X"⟩])
            (ChatOutcome.ok "unused") none "q").effects
    ∧ Effect.sourcesExpander [⟨"A", "tA", "X"⟩]
        ∈ (handleSubmit ⟨none, some "k2"⟩ (SearchOutcome.ok [⟨"A", "tA", "X"⟩])
            (ChatOutcome.ok "unused") none "q").effects
    ∧ Effect.error failureNotice
        ∉ (handleSubmit ⟨none, some "k2"⟩ (SearchOutcome.ok [⟨"A", "tA", "X"⟩])
            (ChatOutcome.ok "unused") none "q").effects := by
  decide

/-- C3 amended: for every form submission with a non-empty question in
which the generator result is falsy (absent, or an empty string — not
the truthy "not configured" string, which is presented as an answer),
the orchestrator presents the generic failure notice and never
presents a sources list. -/
theorem C3_amended (cfg : Config) (search : SearchOutcome) (chat : ChatOutcome)
    (s0 : Option String) (q : String) (hq : q ≠ "")
    (hfail : pyTruthy (get_ai_response_with_context cfg chat q
        (get_web_context cfg search s0 q).context).answer = false) :
    Effect.error failureNotice ∈ (handleSubmit cfg search chat s0 q).effects
    ∧ ∀ ss, Effect.sourcesExpander ss ∉ (handleSubmit cfg search chat s0 q).effects := by
  constructor
  · simp [handleSubmit, hq, hfail]
  · intro ss
    simp only [handleSubmit, if_neg hq]
    simp [hfail, no_sources_in_web_effects, no_sources_in_ai_effects]

/-- C3 amended, instantiated: chat provider raises, so the generator
returns None and the failure notice is shown. -/
theorem C3_amended_witness :
    Effect.error failureNotice
        ∈ (handleSubmit ⟨some "k1", some "k2"⟩ (SearchOutcome.ok [])
            (ChatOutcome.exn "boom") none "q2").effects :=
  (C3_amended ⟨some "k1", some "k2"⟩ (SearchOutcome.ok []) (ChatOutcome.exn "boom")
    none "q2" (by decide) (by decide)).1

/-- C4: the claim states that every empty-or-whitespace input takes
the validation branch with no provider calls.  False on the code: `if
user_input:` (line 165) is string truthiness, so a whitespace-only
input such as " " is truthy and the pipeline runs, issuing the search
call and never the validation notice. -/
theorem C4_counterexample :
    Effect.warning askFirstNotice
        ∉ (handleSubmit ⟨some "k1", some "k2"⟩ (SearchOutcome.ok [])
            (ChatOutcome.ok "a") none " ").effects
    ∧ Effect.searchCall (searchQueryOf " ")
        ∈ (handleSubmit ⟨some "k1", some "k2"⟩ (SearchOutcome.ok [])
            (ChatOutcome.ok "a") none " ").effects := by
  decide

/-- C4 amended: for the empty user input (and only emptiness, not
whitespace, is checked), the orchestrator emits exactly the "please
ask a question" validation notice — no search call, no chat call,
nothing else, session state untouched. -/
theorem C4_amended (cfg : Config) (search : SearchOutcome) (chat : ChatOutcome)
    (s0 : Option String) :
    handleSubmit cfg search chat s0 "" =
      { effects := [Effect.warning askFirstNotice], session_search_query := s0 } := by
  simp [handleSubmit]

/-- C5: for every question and every non-empty results list, the
produced context is exactly the per-record entries "Source URL:
<url>\nContent: <content>" joined in provider order by
"\n\n---\n\n", and the sources are the provider's results unchanged
(no re-sorting). -/
theorem C5_context_join (cfg : Config) (rs : List SourceRecord) (s0 : Option String)
    (q : String) (ht : pyTruthy cfg.tavily_api_key = true) (hrs : rs ≠ []) :
    (get_web_context cfg (SearchOutcome.ok rs) s0 q).context
      = some (String.intercalate contextSeparator (rs.map contextEntry))
    ∧ (get_web_context cfg (SearchOutcome.ok rs) s0 q).sources = rs := by
  cases rs with
  | nil => exact absurd rfl hrs
  | cons r t => simp [get_web_context, ht, buildContext]

/-- C5 instantiated at the spec's Scenario 1: urls A,B with contents
X,Y give exactly the stated joined string. -/
theorem C5_context_join_witness :
    (get_web_context ⟨some "k1", some "k2"⟩
        (SearchOutcome.ok [⟨"A", "tA", "X"⟩, ⟨"B", "tB", "Y"⟩]) none
        "best places in Kalash Valleys").context
      = some "Source URL: A\nContent: X\n\n---\n\nSource URL: B\nContent: Y" := by
  have h := C5_context_join ⟨some "k1", some "k2"⟩
    [⟨"A", "tA", "X"⟩, ⟨"B", "tB", "Y"⟩] none "best places in Kalash Valleys"
    (by decide) (by decide)
  rw [h.1]
  rfl

/-- C6: with the search key absent (falsy), `get_web_context` returns
(absent, []) for every question and outcome, makes no network call,
and emits exactly the non-fatal "search disabled" warning. -/
theorem C6_search_disabled (cfg : Config) (search : SearchOutcome)
    (s0 : Option String) (q : String) (ht : pyTruthy cfg.tavily_api_key = false) :
    get_web_context cfg search s0 q =
      { context := none, sources := [], session_search_query := s0,
        effects := [Effect.warning tavilyWarning] } := by
  simp [get_web_context, ht]

/-- C6 instantiated at a concrete run with the key absent. -/
theorem C6_search_disabled_witness :
    get_web_context ⟨some "k1", none⟩ (SearchOutcome.ok [⟨"A", "tA", "X"⟩])
        (some "old") "q3" =
      { context := none, sources := [], session_search_query := some "old",
        effects := [Effect.warning tavilyWarning] } :=
  C6_search_disabled ⟨some "k1", none⟩ (SearchOutcome.ok [⟨"A", "tA", "X"⟩])
    (some "old") "q3" (by decide)

/-- C7: with the chat key absent (falsy), `get_ai_response_with_context`
returns the fixed configuration-error string — a non-absent value — for
every (question, context) input, and makes no network call (its effect
list is empty). -/
theorem C7_chat_not_configured (cfg : Config) (chat : ChatOutcome)
    (q : String) (ctx : Option String) (ho : pyTruthy cfg.openai_api_key = false) :
    get_ai_response_with_context cfg chat q ctx =
      { answer := some openaiNotConfigured, effects := [] } := by
  simp [get_ai_response_with_context, ho]

/-- C7 instantiated at a concrete run with the key absent. -/
theorem C7_chat_not_configured_witness :
    get_ai_response_with_context ⟨none, some "k2"⟩ (ChatOutcome.ok "a") "q"
        (some sentinelContext) =
      { answer := some openaiNotConfigured, effects := [] } :=
  C7_chat_not_configured ⟨none, some "k2"⟩ (ChatOutcome.ok "a") "q"
    (some sentinelContext) (by decide)

/-- C8: with the chat key configured, a raised provider exception is
caught (the embedding is total, so nothing propagates), a display-level
error is reported, and the function returns the absent value None,
which is distinct from the "not configured" string result. -/
theorem C8_chat_exception (cfg : Config) (q : String) (ctx : Option String)
    (msg : String) (ho : pyTruthy cfg.openai_api_key = true) :
    (get_ai_response_with_context cfg (ChatOutcome.exn msg) q ctx).answer = none
    ∧ (get_ai_response_with_context cfg (ChatOutcome.exn msg) q ctx).answer
        ≠ some openaiNotConfigured
    ∧ Effect.error (openaiErrorMsg msg)
        ∈ (get_ai_response_with_context cfg (ChatOutcome.exn msg) q ctx).effects := by
  cases h : pyTruthy ctx <;> simp [get_ai_response_with_context, ho, h]

/-- C8 instantiated at a concrete failing chat call. -/
theorem C8_chat_exception_witness :
    (get_ai_response_with_context ⟨some "k1", some "k2"⟩ (ChatOutcome.exn "timeout")
        "q4" none).answer = none :=
  (C8_chat_exception ⟨some "k1", some "k2"⟩ "q4" none "timeout" (by decide)).1

/-- C9: with both keys configured and a non-empty question, a raised
search exception is caught and `get_web_context` returns (absent, []);
the pipeline continues, the generator runs in the general-knowledge
branch (and never the context-synthesis branch), and — the chat call
succeeding with a non-blank completion — a final answer is still
produced and displayed. -/
theorem C9_search_failure_pipeline (cfg : Config) (s0 : Option String)
    (q msg ans : String) (hq : q ≠ "") (ht : pyTruthy cfg.tavily_api_key = true)
    (ho : pyTruthy cfg.openai_api_key = true) (hans : pyStrip ans ≠ "") :
    (get_web_context cfg (SearchOutcome.exn msg) s0 q).context = none
    ∧ (get_web_context cfg (SearchOutcome.exn msg) s0 q).sources = []
    ∧ Effect.chatCall generalSystemMessage q
        ∈ (handleSubmit cfg (SearchOutcome.exn msg) (ChatOutcome.ok ans) s0 q).effects
    ∧ (∀ u, Effect.chatCall synthesisSystemMessage u
        ∉ (handleSubmit cfg (SearchOutcome.exn msg) (ChatOutcome.ok ans) s0 q).effects)
    ∧ Effect.markdown (pyStrip ans)
        ∈ (handleSubmit cfg (SearchOutcome.exn msg) (ChatOutcome.ok ans) s0 q).effects := by
  refine ⟨by simp [get_web_context, ht], by simp [get_web_context, ht], ?_, ?_, ?_⟩ <;>
    simp [handleSubmit, get_web_context, get_ai_response_with_context,
      hq, ht, ho, pyTruthy_none, pyTruthy_some_of_ne hans, synthesis_ne_general]

/-- C9 instantiated at a concrete run: search raises, chat succeeds,
the stripped answer is displayed. -/
theorem C9_search_failure_pipeline_witness :
    Effect.markdown (pyStrip "  An answer.  ")
        ∈ (handleSubmit ⟨some "k1", some "k2"⟩ (SearchOutcome.exn "net down")
            (ChatOutcome.ok "  An answer.  ") none "q5").effects :=
  (C9_search_failure_pipeline ⟨some "k1", some "k2"⟩ none "q5" "net down"
    "  An answer.  " (by decide) (by decide) (by decide) (by decide)).2.2.2.2

/-- C10: with the search key configured, `get_web_context` writes the
derived domain-scoped search query into session state before issuing
the search call (the first two effects, in order, are the session write
and then the search call), and the session value afterwards is the new
query for every outcome — in particular the exception path does not
restore the previous value. -/
theorem C10_session_write (cfg : Config) (search : SearchOutcome)
    (s0 : Option String) (q : String) (ht : pyTruthy cfg.tavily_api_key = true) :
    (get_web_context cfg search s0 q).session_search_query = some (searchQueryOf q)
    ∧ (get_web_context cfg search s0 q).effects.take 2
        = [Effect.sessionWrite (searchQueryOf q), Effect.searchCall (searchQueryOf q)] := by
  cases search with
  | ok rs => cases rs <;> simp [get_web_context, ht]
  | exn m => simp [get_web_context, ht]

/-- C10 instantiated: a failing search still leaves the new query in
session state, replacing the previous value. -/
theorem C10_session_write_witness :
    (get_web_context ⟨some "k1", some "k2"⟩ (SearchOutcome.exn "boom")
        (some "previous query") "q6").session_search_query
      = some (searchQueryOf "q6") :=
  (C10_session_write ⟨some "k1", some "k2"⟩ (SearchOutcome.exn "boom")
    (some "previous query") "q6" (by decide)).1

end ChitralConcierge
